import Mathlib

/-!
Verification development for the Dream Journal signal-extraction and
aggregation engine.  The Python source (`nlp_analyzer.py`, `predictor.py`,
`app.py`, `models.py`, `config.py`) is shallowly embedded below: machine
floats become exact rationals, Python `None` becomes `Option`, raised
exceptions become `Except.error`, and the injected linguistic-analysis
capability (spacy tokenisation / POS / NER, VADER and TextBlob polarity)
becomes an explicit record of functions supplied by the caller.
-/

namespace DreamZero

/-- Round-half-to-even to the nearest integer, on exact rationals.  Models
Python's `round` (banker's rounding) applied to an exact decimal value. -/
def rhe (q : ℚ) : ℤ :=
  let f := ⌊q⌋
  let r := q - f
  if r < 1/2 then f
  else if 1/2 < r then f + 1
  else if f % 2 = 0 then f else f + 1

/-- `round(x, 3)` from Python: round to 3 decimal places. -/
def round3 (q : ℚ) : ℚ := (rhe (q * 1000) : ℚ) / 1000

/-- Is `needle` a prefix of `hay` (as character lists)? -/
def strStartsAux : List Char → List Char → Bool
  | [], _ => true
  | _ :: _, [] => false
  | a :: as, b :: bs => a == b && strStartsAux as bs

/-- Does `hay` contain `needle` as a contiguous substring (character lists)? -/
def strContainsAux (needle : List Char) : List Char → Bool
  | [] => strStartsAux needle []
  | c :: rest => strStartsAux needle (c :: rest) || strContainsAux needle rest

/-- Python's `needle in hay` on strings: contiguous substring test. -/
def strContains (hay needle : String) : Bool :=
  strContainsAux needle.toList hay.toList

/-- Python's `str.lower()`, character by character. -/
def pyLower (s : String) : String := ⟨s.data.map Char.toLower⟩

/-- One token of the injected linguistic analysis (a spacy token): its
surface text, coarse part-of-speech tag, and stop-word / punctuation flags. -/
structure Token where
  text : String
  pos : String
  is_stop : Bool
  is_punct : Bool
deriving DecidableEq

/-- The injected linguistic-analysis capability: tokenisation with flags,
named-entity spans as (text, label) pairs, and the two sentiment polarity
estimators (VADER compound and TextBlob polarity), each valued in [-1,1]. -/
structure NlpCap where
  tokens : String → List Token
  ents : String → List (String × String)
  vaderCompound : String → ℚ
  textblobPolarity : String → ℚ

/-- `Config.EMOTION_CATEGORIES` from `config.py`. -/
def EMOTION_CATEGORIES : List String :=
  ["joy", "sadness", "fear", "anger", "surprise", "disgust", "trust", "anticipation"]

/-- `self.emotion_keywords` from `nlp_analyzer.py` (`DreamAnalyzer.__init__`). -/
def emotion_keywords : List (String × List String) :=
  [("joy", ["happy", "joyful", "excited", "delighted", "cheerful", "wonderful",
            "amazing", "love", "loved", "beautiful", "peaceful", "content"]),
   ("sadness", ["sad", "unhappy", "depressed", "lonely", "crying", "tears",
                "grief", "loss", "heartbroken", "miserable", "gloomy"]),
   ("fear", ["afraid", "scared", "terrified", "anxious", "worried", "panic",
             "nightmare", "horror", "frightened", "threatened", "danger"]),
   ("anger", ["angry", "mad", "furious", "rage", "frustrated", "irritated",
              "annoyed", "hostile", "aggressive", "violent"]),
   ("surprise", ["surprised", "shocked", "amazed", "astonished", "stunned",
                 "unexpected", "sudden", "startled"]),
   ("disgust", ["disgusted", "revolted", "repulsed", "nasty", "gross",
                "horrible", "awful", "unpleasant"]),
   ("trust", ["trust", "safe", "secure", "comfortable", "protected",
              "confident", "reliable"]),
   ("anticipation", ["waiting", "expecting", "anticipating", "looking forward",
                     "preparing", "ready", "hopeful"])]

/-- `self.stress_keywords` from `nlp_analyzer.py`. -/
def stress_keywords : List String :=
  ["chased", "running", "late", "test", "exam", "unprepared",
   "falling", "drowning", "trapped", "lost", "naked", "public",
   "teeth falling", "unable to move", "paralyzed", "screaming"]

/-- `common_themes` from `DreamAnalyzer._identify_themes`. -/
def common_themes : List (String × List String) :=
  [("flying", ["flying", "floating", "soaring", "air"]),
   ("falling", ["falling", "dropping", "plunging"]),
   ("chase", ["chased", "running from", "pursued", "escape"]),
   ("water", ["water", "ocean", "sea", "river", "swimming", "drowning"]),
   ("death", ["death", "dying", "dead", "funeral"]),
   ("school", ["school", "class", "teacher", "exam", "test"]),
   ("work", ["work", "office", "boss", "job", "meeting"]),
   ("family", ["family", "mother", "father", "parent", "sibling"]),
   ("romance", ["love", "kiss", "romantic", "date", "partner"]),
   ("animals", ["dog", "cat", "animal", "bird", "snake"]),
   ("travel", ["travel", "journey", "trip", "destination"]),
   ("home", ["home", "house", "room", "apartment"])]

/-- Entity categories of `DreamAnalyzer._extract_entities`'s result. -/
structure Entities where
  people : List String
  places : List String
  organizations : List String
  other : List String
  symbols : List String
deriving DecidableEq

/-- The per-entry signal vector returned by `DreamAnalyzer.analyze_dream`. -/
structure Analysis where
  sentiment_score : ℚ
  emotions : List (String × ℚ)
  entities : Entities
  themes : List String
  dream_intensity : ℚ
  stress_level : ℚ
deriving DecidableEq

/-- `content`'s truthiness/strip test in `analyze_dream`:
`not content or not content.strip()` — empty or whitespace-only text. -/
def isBlank (s : String) : Bool := s.toList.all Char.isWhitespace

/-- `DreamAnalyzer._analyze_sentiment`: average the two polarity
estimators, round to 3 decimals. -/
def analyze_sentiment (cap : NlpCap) (text : String) : ℚ :=
  round3 ((cap.vaderCompound text + cap.textblobPolarity text) / 2)

/-- The word count used by `_detect_emotions`: number of non-stopword,
non-punctuation tokens, floored at 1 to avoid division by zero. -/
def effWordCount (tokens : List Token) : ℕ :=
  let n := (tokens.filter (fun t => !t.is_stop && !t.is_punct)).length
  if n = 0 then 1 else n

/-- `DreamAnalyzer._detect_emotions`: for each lexicon category, count its
keywords found as substrings of the lower-cased text (each at most once),
normalise by `word_count * 0.1`, cap at 1.0, round to 3 decimals. -/
def detect_emotions (cap : NlpCap) (text : String) : List (String × ℚ) :=
  let text_lower := pyLower text
  let word_count := effWordCount (cap.tokens text)
  emotion_keywords.map (fun p =>
    (p.1,
     round3 (min (((p.2.countP (fun kw => strContains text_lower kw)) : ℚ) /
                  ((word_count : ℚ) * (1/10))) 1)))

/-- The qualifying common nouns of `_extract_entities`: `NOUN` part of
speech, not a stop word, surface length > 3, lower-cased. -/
def qualifyingNouns (tokens : List Token) : List String :=
  (tokens.filter (fun t => t.pos == "NOUN" && !t.is_stop && 3 < t.text.length)).map
    (fun t => pyLower t.text)

/-- `DreamAnalyzer._extract_entities`: dispatch NER spans on their label,
then take `list(set(nouns[:10]))` as symbols and deduplicate every list.
Python's `list(set(...))` has unspecified order; we keep first occurrences
(`dedup` here), which agrees on membership and cardinality. -/
def extract_entities (cap : NlpCap) (text : String) : Entities :=
  let es := cap.ents text
  let people := (es.filter (fun e => e.2 == "PERSON")).map (fun e => e.1.trim)
  let places := (es.filter (fun e => e.2 == "GPE" || e.2 == "LOC" || e.2 == "FAC")).map
    (fun e => e.1.trim)
  let organizations := (es.filter (fun e => e.2 == "ORG")).map (fun e => e.1.trim)
  let other := (es.filter (fun e =>
    !(e.2 == "PERSON" || e.2 == "GPE" || e.2 == "LOC" || e.2 == "FAC" || e.2 == "ORG"))).map
    (fun e => e.1.trim)
  let nouns := qualifyingNouns (cap.tokens text)
  { people := people.dedup
    places := places.dedup
    organizations := organizations.dedup
    other := other.dedup
    symbols := (nouns.take 10).dedup }

/-- `DreamAnalyzer._identify_themes`: a theme is reported when any of its
keywords occurs as a substring of the lower-cased text, in the fixed
declaration order.  (The source also computes spacy noun chunks but never
uses them.) -/
def identify_themes (text : String) : List String :=
  let text_lower := pyLower text
  (common_themes.filter (fun p => p.2.any (fun kw => strContains text_lower kw))).map
    (fun p => p.1)

/-- Python `str.split()` word count: whitespace-separated non-empty chunks. -/
def rawWordCount (text : String) : ℕ :=
  ((text.split Char.isWhitespace).filter (fun w => w ≠ "")).length

/-- Count occurrences of a single character in the text. -/
def charCount (text : String) (c : Char) : ℕ := text.toList.countP (fun d => d == c)

/-- `DreamAnalyzer._calculate_intensity`. -/
def calculate_intensity (text : String) (emotions : List (String × ℚ)) : ℚ :=
  let word_count := rawWordCount text
  let exclamation_count := charCount text '!'
  let question_count := charCount text '?'
  let emotion_intensity := (emotions.map Prod.snd).sum
  round3 (min (((word_count : ℚ) / 500) * (3/10) +
               ((exclamation_count : ℚ) / 10) * (2/10) +
               ((question_count : ℚ) / 10) * (1/10) +
               emotion_intensity * (4/10)) 1)

/-- `DreamAnalyzer._detect_stress`. -/
def detect_stress (cap : NlpCap) (text : String) : ℚ :=
  let text_lower := pyLower text
  let stress_matches := stress_keywords.countP (fun kw => strContains text_lower kw)
  let sentiment := analyze_sentiment cap text
  let negative_sentiment := max 0 (-sentiment)
  round3 (min (((stress_matches : ℚ) / 5) * (6/10) + negative_sentiment * (4/10)) 1)

/-- `DreamAnalyzer._empty_analysis`: the zero signal vector. -/
def empty_analysis : Analysis :=
  { sentiment_score := 0
    emotions := EMOTION_CATEGORIES.map (fun e => (e, (0 : ℚ)))
    entities := { people := [], places := [], organizations := [], other := [], symbols := [] }
    themes := []
    dream_intensity := 0
    stress_level := 0 }

/-- `DreamAnalyzer.analyze_dream`: blank text short-circuits to the zero
vector, otherwise all six signals are computed. -/
def analyze_dream (cap : NlpCap) (content : String) : Analysis :=
  if isBlank content then empty_analysis
  else
    let sentiment := analyze_sentiment cap content
    let emotions := detect_emotions cap content
    { sentiment_score := sentiment
      emotions := emotions
      entities := extract_entities cap content
      themes := identify_themes content
      dream_intensity := calculate_intensity content emotions
      stress_level := detect_stress cap content }

/-- A stored dream entry as the aggregation code reads it (`models.py`:
`DreamEntry`).  `dream_date` is modelled in whole hours since an epoch
(hour-of-day = `dream_date.emod 24`, day differences divide by 24 and
floor, as Python's `timedelta.days` does).  The JSON-text columns
(`emotions`, `themes`) are modelled already parsed; `none` is a NULL
column (falsy in the source's truthiness tests). -/
structure DreamEntry where
  dream_date : ℤ
  sentiment_score : Option ℚ
  emotions : Option (List (String × ℚ))
  themes : Option (List String)
  stress_level : Option ℚ
  sleep_quality : Option ℤ
deriving DecidableEq, Inhabited

/-- The numerator of `generate_insights`'s average:
`sum(e.sentiment_score for e in entries if e.sentiment_score)` — Python
truthiness skips both `None` and `0.0`. -/
def truthySentSum (entries : List DreamEntry) : ℚ :=
  ((entries.filterMap (fun e => e.sentiment_score)).filter (fun s => decide (s ≠ 0))).sum

/-- `all_emotions[emotion] = all_emotions.get(emotion, 0) + score`: update
in place if the key exists, else append (Python dicts keep insertion
order). -/
def addScore (acc : List (String × ℚ)) (k : String) (v : ℚ) : List (String × ℚ) :=
  if acc.any (fun p => p.1 == k) then
    acc.map (fun p => if p.1 == k then (p.1, p.2 + v) else p)
  else acc ++ [(k, v)]

/-- The emotion-summing loop of `generate_insights`. -/
def accumEmotions (entries : List DreamEntry) : List (String × ℚ) :=
  entries.foldl (fun acc e =>
    match e.emotions with
    | none => acc
    | some m => m.foldl (fun acc2 p => addScore acc2 p.1 p.2) acc) []

/-- Python's `max(items, key=value)`: first item attaining the maximum. -/
def maxByValue : List (String × ℚ) → Option (String × ℚ)
  | [] => none
  | p :: ps => some (ps.foldl (fun best q => if best.2 < q.2 then q else best) p)

/-- Stable insertion keeping existing elements with equal keys in front. -/
def insertLe {α : Type} (le : α → α → Bool) (a : α) : List α → List α
  | [] => [a]
  | b :: bs => if le b a then b :: insertLe le a bs else a :: b :: bs

/-- Stable sort (insertion sort), as Python's `sorted` is stable. -/
def sortBy {α : Type} (le : α → α → Bool) (l : List α) : List α :=
  l.foldl (fun acc a => insertLe le a acc) []

/-- `Counter(l).most_common(n)` keys: counts in first-seen key order,
stably sorted by count descending, first `n` kept. -/
def mostCommon (l : List String) (n : ℕ) : List String :=
  let keys := l.eraseDups
  let counted := keys.map (fun k => (k, l.count k))
  ((sortBy (fun a b => decide (b.2 ≤ a.2)) counted).take n).map Prod.fst

/-- The stress-trend half-split classification of `generate_insights`. -/
def stressTrend (entries : List DreamEntry) : String :=
  let sl := entries.filterMap (fun e => e.stress_level)
  if 2 ≤ sl.length then
    let h := sl.length / 2
    let first_half := (sl.take h).sum / (h : ℚ)
    let second_half := (sl.drop h).sum / ((sl.length - h : ℕ) : ℚ)
    if first_half * (11/10) < second_half then "increasing"
    else if second_half < first_half * (9/10) then "decreasing"
    else "stable"
  else "insufficient data"

/-- The grand total over all summed emotions. -/
def emotionTotal (entries : List DreamEntry) : ℚ :=
  ((accumEmotions entries).map Prod.snd).sum

/-- The summary record returned by `DreamAnalyzer.generate_insights`. -/
structure Insights where
  total_entries : ℕ
  avg_sentiment : ℚ
  dominant_emotion : String
  emotion_distribution : List (String × ℚ)
  recurring_themes : List String
  stress_trend : String
deriving DecidableEq

/-- `DreamAnalyzer.generate_insights`: `None` on an empty collection,
otherwise the aggregate record.  Note the average divides the truthy
sentiment sum by `len(entries)`, not by the number of sentiment-bearing
entries. -/
def generate_insights (entries : List DreamEntry) : Option Insights :=
  if entries.isEmpty then none
  else
    let total := entries.length
    let avg_sentiment := truthySentSum entries / (total : ℚ)
    let all_emotions := accumEmotions entries
    let dominant_emotion :=
      match maxByValue all_emotions with
      | some p => p.1
      | none => "neutral"
    let emotion_total := emotionTotal entries
    let emotion_distribution :=
      if 0 < emotion_total then
        all_emotions.map (fun p => (p.1, round3 (p.2 / emotion_total)))
      else []
    let all_themes := entries.foldl (fun acc e =>
      match e.themes with
      | none => acc
      | some ts => acc ++ ts) []
    some { total_entries := total
           avg_sentiment := round3 avg_sentiment
           dominant_emotion := dominant_emotion
           emotion_distribution := emotion_distribution
           recurring_themes := mostCommon all_themes 5
           stress_trend := stressTrend entries }

/-- The spec's own words for `avg_sentiment`, kept for comparison with the
code: arithmetic mean of sentiment over exactly the entries whose
sentiment is present (absent sentiments excluded from numerator and
denominator alike). -/
def avg_sentiment_spec (entries : List DreamEntry) : Option ℚ :=
  let present := entries.filterMap (fun e => e.sentiment_score)
  if present.isEmpty then none
  else some (present.sum / (present.length : ℚ))

/-- The forecast record of `DreamPredictor.predict_mood_trend`. -/
structure Forecast where
  days : List ℤ
  predictions : List ℚ
  trend : String
  confidence : String
deriving DecidableEq

/-- Ordinary least squares through the given points, as
`sklearn.linear_model.LinearRegression` computes it (centred data; a
degenerate abscissa column yields slope 0 and intercept = mean y, the
minimum-norm least-squares solution — no exception). -/
def fitOLS (pts : List (ℤ × ℚ)) : ℚ × ℚ :=
  let n : ℚ := pts.length
  let xs := pts.map (fun p => (p.1 : ℚ))
  let ys := pts.map Prod.snd
  let xbar := xs.sum / n
  let ybar := ys.sum / n
  let sxx := (xs.map (fun x => (x - xbar) ^ 2)).sum
  let sxy := (pts.map (fun p => ((p.1 : ℚ) - xbar) * (p.2 - ybar))).sum
  let slope := if sxx = 0 then 0 else sxy / sxx
  (slope, ybar - slope * xbar)

/-- The data-preparation loop of `predict_mood_trend`: iterate the entries
sorted by date, keep those whose sentiment is present, and pair each with
`(entry.dream_date - entries[0].dream_date).days` — the day offset is
taken from the FIRST ELEMENT OF THE INPUT LIST, not from the sorted
list. -/
def qualifyingPoints (entries : List DreamEntry) : List (ℤ × ℚ) :=
  let start := (entries.headD default).dream_date
  (sortBy (fun a b => decide (a.dream_date ≤ b.dream_date)) entries).filterMap
    (fun e => e.sentiment_score.map (fun s => (Int.fdiv (e.dream_date - start) 24, s)))

/-- `DreamPredictor.predict_mood_trend`.  An empty prediction list (only
possible when `days_ahead = 0`) makes Python's `predictions[-1]` raise
`IndexError`, which the surrounding `except` turns into `None`; the final
`match` models that. -/
def predict_mood_trend (entries : List DreamEntry) (days_ahead : ℕ) : Option Forecast :=
  if entries.length < 7 then none
  else
    let pts := qualifyingPoints entries
    if pts.length < 3 then none
    else
      let fit := fitOLS pts
      let last_day := (pts.map Prod.fst).getLastD 0
      let future_days := (List.range days_ahead).map (fun i => last_day + ((i : ℤ) + 1))
      let predictions := future_days.map (fun x => fit.2 + fit.1 * (x : ℚ))
      match predictions with
      | [] => none
      | p0 :: _ =>
        some { days := future_days
               predictions := predictions
               trend := if p0 < predictions.getLastD 0 then "improving" else "declining"
               confidence := if pts.length < 14 then "low"
                 else if pts.length < 30 then "medium" else "high" }

/-- The record produced by `DreamPredictor._analyze_time_patterns` when
both buckets are inhabited. -/
structure TimePattern where
  morning_avg : ℚ
  evening_avg : ℚ
  insight : String
deriving DecidableEq

/-- `DreamPredictor._analyze_time_patterns`.  The source appends raw
`sentiment_score` values (which may be `None`) to the buckets and then
calls `sum` on them; a `None` in a bucket makes `sum` raise `TypeError`,
modelled as `Except.error`. -/
def analyze_time_patterns (entries : List DreamEntry) :
    Except String (Option TimePattern) :=
  let morning := (entries.filter (fun e => decide (e.dream_date.emod 24 < 12))).map
    (fun e => e.sentiment_score)
  let evening := (entries.filter (fun e => !decide (e.dream_date.emod 24 < 12))).map
    (fun e => e.sentiment_score)
  if !morning.isEmpty && !evening.isEmpty then
    if morning.all Option.isSome && evening.all Option.isSome then
      let ms := morning.filterMap id
      let es := evening.filterMap id
      let morning_avg := ms.sum / (ms.length : ℚ)
      let evening_avg := es.sum / (es.length : ℚ)
      Except.ok (some
        { morning_avg := morning_avg
          evening_avg := evening_avg
          insight :=
            if evening_avg < morning_avg then "Morning dreams tend to be more positive"
            else "Evening dreams tend to be more positive" })
    else Except.error "TypeError"
  else Except.ok none

/-- `_generate_recommendations` from `app.py`, the rule-based insight
composer run over a computed `Insights` record.  The source joins the
collected recommendation strings with spaces for display; we keep the
list. -/
def generate_recommendations (insights : Insights) : List String :=
  let recs1 : List String :=
    if insights.avg_sentiment < -(3/10) then
      ["Your dreams show negative sentiment. Consider stress-reduction practices before bed."]
    else if (3/10 : ℚ) < insights.avg_sentiment then
      ["Your dreams are predominantly positive. Keep up your good sleep hygiene!"]
    else []
  let recs2 := recs1 ++
    (if insights.stress_trend = "increasing" then
      ["Stress levels in your dreams are increasing. Try meditation or relaxation exercises."]
     else [])
  let recs3 := recs2 ++
    (if insights.dominant_emotion = "fear" then
      ["Fear is prominent in your dreams. Consider journaling before bed to process anxieties."]
     else if insights.dominant_emotion = "sadness" then
      ["Notice sadness themes. Reach out to friends or consider speaking with a counselor."]
     else [])
  if recs3.isEmpty then
    ["Your dream patterns look balanced. Continue regular journaling for best insights."]
  else recs3

/-! ## Helper lemmas -/

theorem abs_rhe_sub_le (x : ℚ) : |(rhe x : ℚ) - x| ≤ 1/2 := by
  have h0 : (⌊x⌋ : ℚ) ≤ x := Int.floor_le x
  have h1 : x < ⌊x⌋ + 1 := Int.lt_floor_add_one x
  unfold rhe
  dsimp only
  split_ifs with ha hb hc <;> rw [abs_le] <;> push_cast <;> constructor <;> linarith

theorem abs_round3_sub_le (q : ℚ) : |round3 q - q| ≤ 1/2000 := by
  unfold round3
  have h := abs_rhe_sub_le (q * 1000)
  have h2 : (rhe (q * 1000) : ℚ) / 1000 - q = ((rhe (q * 1000) : ℚ) - q * 1000) / 1000 := by
    ring
  rw [h2, abs_div]
  rw [show |(1000 : ℚ)| = 1000 by norm_num]
  linarith [div_le_div_of_nonneg_right (c := (1000 : ℚ)) h (by norm_num)]

theorem sum_round3_close (l : List ℚ) :
    |(l.map round3).sum - l.sum| ≤ (l.length : ℚ) / 2000 := by
  induction l with
  | nil => simp
  | cons a t ih =>
    simp only [List.map_cons, List.sum_cons, List.length_cons]
    have h := abs_round3_sub_le a
    have step : |round3 a + (t.map round3).sum - (a + t.sum)| ≤
        |round3 a - a| + |(t.map round3).sum - t.sum| := by
      have : round3 a + (t.map round3).sum - (a + t.sum) =
          (round3 a - a) + ((t.map round3).sum - t.sum) := by ring
      rw [this]
      exact abs_add _ _
    refine step.trans ?_
    push_cast
    linarith

theorem sum_map_div (l : List ℚ) (c : ℚ) :
    (l.map (fun x => x / c)).sum = l.sum / c := by
  induction l with
  | nil => simp
  | cons a t ih => simp [ih, add_div]

theorem lookup_map_pair {β γ : Type} (l : List (String × β)) (f : String × β → γ)
    (a : String) (b : β) (hmem : (a, b) ∈ l) (hnd : (l.map Prod.fst).Nodup) :
    (l.map (fun p => (p.1, f p))).lookup a = some (f (a, b)) := by
  induction l with
  | nil => cases hmem
  | cons x t ih =>
    rw [List.map_cons, List.nodup_cons] at hnd
    rcases List.mem_cons.mp hmem with hx | ht
    · rw [← hx]
      simp [List.lookup]
    · have hax : a ≠ x.1 := by
        intro he
        exact hnd.1 (he ▸ List.mem_map_of_mem Prod.fst ht)
      have hbeq : (a == x.1) = false := beq_eq_false_iff_ne.mpr hax
      simp only [List.map_cons, List.lookup_cons, hbeq]
      exact ih ht hnd.2

theorem insertLe_perm {α : Type} (le : α → α → Bool) (a : α) (l : List α) :
    List.Perm (insertLe le a l) (a :: l) := by
  induction l with
  | nil => simp [insertLe]
  | cons b t ih =>
    unfold insertLe
    by_cases h : le b a
    · rw [if_pos h]
      exact (ih.cons b).trans (List.Perm.swap a b t)
    · rw [if_neg h]

theorem sortBy_perm {α : Type} (le : α → α → Bool) (l : List α) :
    List.Perm (sortBy le l) l := by
  suffices h : ∀ acc, List.Perm (List.foldl (fun acc a => insertLe le a acc) acc l)
      (acc ++ l) by
    simpa using h []
  induction l with
  | nil => intro acc; simp
  | cons a t ih =>
    intro acc
    simp only [List.foldl_cons]
    refine (ih (insertLe le a acc)).trans ?_
    refine (((insertLe_perm le a acc).append_right t).trans ?_)
    exact List.perm_middle.symm

theorem mostCommon_nil (n : ℕ) : mostCommon [] n = [] := by cases n <;> rfl

theorem length_filterMap_isSome {α β : Type} (f : α → Option β) (l : List α) :
    (l.filterMap f).length = (l.filter (fun a => (f a).isSome)).length := by
  induction l with
  | nil => rfl
  | cons a t ih =>
    cases h : f a <;> simp [List.filterMap_cons, h, List.filter_cons, ih]

theorem qualifyingPoints_length (entries : List DreamEntry) :
    (qualifyingPoints entries).length =
      (entries.filter (fun e => e.sentiment_score.isSome)).length := by
  unfold qualifyingPoints
  rw [length_filterMap_isSome]
  have hperm := (sortBy_perm (fun a b => decide (a.dream_date ≤ b.dream_date)) entries).filter
    (fun e => (e.sentiment_score.map
      (fun s => (Int.fdiv (e.dream_date - (entries.headD default).dream_date) 24, s))).isSome)
  rw [hperm.length_eq]
  congr 1
  apply List.filter_congr
  intro e _
  simp [Option.isSome_map]

/-! ## Concrete inputs used by witnesses and counterexamples -/

/-- A trivial linguistic capability: no tokens, no entities, zero polarity. -/
def trivialCap : NlpCap := ⟨fun _ => [], fun _ => [], fun _ => 0, fun _ => 0⟩

/-- An entry with sentiment 1 and nothing else. -/
def entryA : DreamEntry := ⟨0, some 1, none, none, none, none⟩

/-- An entry with no sentiment. -/
def entryB : DreamEntry := ⟨24, none, none, none, none, none⟩

/-- An entry with sentiment 0 (falsy in Python, so skipped by the sum). -/
def entryC : DreamEntry := ⟨48, some 0, none, none, none, none⟩

/-- A plain non-stopword, non-punctuation token. -/
def plainTok (s : String) : Token := ⟨s, "X", false, false⟩

/-- A capability that tokenises every text as ["happy", "nightmare"]. -/
def capW : NlpCap :=
  ⟨fun _ => [plainTok "happy", plainTok "nightmare"], fun _ => [], fun _ => 0, fun _ => 0⟩

/-! ## Claim C1 -/

/-- C1, counterexample.  The claim says `avg_sentiment` is the arithmetic
mean over exactly the entries whose sentiment is present.  On the input
`[sentiment 1, no sentiment, sentiment 0]` that mean is `1/2`
(`avg_sentiment_spec`), but `generate_insights` divides the truthy
sentiment sum by the total entry count and returns `0.333`. -/
theorem c1_counterexample :
    (generate_insights [entryA, entryB, entryC]).map (fun i => i.avg_sentiment) =
      some (333/1000) ∧
    avg_sentiment_spec [entryA, entryB, entryC] = some (1/2) ∧
    (333/1000 : ℚ) ≠ 1/2 := by
  refine ⟨?_, ?_, by norm_num⟩
  · simp [generate_insights, truthySentSum, entryA, entryB, entryC, round3, rhe]
    norm_num [Int.fract]
  · simp [avg_sentiment_spec, entryA, entryB, entryC]

/-- C1, amended: for every non-empty entry sequence, `avg_sentiment` is the
sum of the present-and-nonzero sentiments divided by the TOTAL number of
entries (rounded to 3 decimals); entries without sentiment are excluded
from the numerator only, and when every entry lacks sentiment the result
is 0, not a division by zero. -/
theorem c1_avg_sentiment_amended (entries : List DreamEntry) (h : entries ≠ []) :
    (generate_insights entries).map (fun i => i.avg_sentiment) =
      some (round3 (truthySentSum entries / (entries.length : ℚ))) ∧
    ((∀ e ∈ entries, e.sentiment_score = none) →
      (generate_insights entries).map (fun i => i.avg_sentiment) = some 0) := by
  have h1 : (generate_insights entries).map (fun i => i.avg_sentiment) =
      some (round3 (truthySentSum entries / (entries.length : ℚ))) := by
    cases entries with
    | nil => exact absurd rfl h
    | cons a t => simp [generate_insights]
  refine ⟨h1, fun hall => ?_⟩
  have h0 : truthySentSum entries = 0 := by
    unfold truthySentSum
    have : entries.filterMap (fun e => e.sentiment_score) = [] := by
      rw [List.filterMap_eq_nil_iff]
      exact hall
    rw [this]
    simp
  rw [h1, h0, zero_div]
  simp [round3, rhe]

/-- C1 witness: a single entry with no sentiment yields average 0. -/
theorem c1_witness :
    (generate_insights [entryB]).map (fun i => i.avg_sentiment) = some 0 :=
  (c1_avg_sentiment_amended [entryB] (by simp)).2 (by decide)

/-! ## Claim C2 -/

/-- C2: the aggregator called on the empty sequence produces no insights
record: the `EmptyInput` failure is the `none` of the embedding
(`generate_insights`'s `return None` on `if not entries`), never a normal
summary value. -/
theorem c2_empty_input_fails : generate_insights [] = none := rfl

/-! ## Claim C5 -/

/-- C5: for every linguistic capability and every empty or whitespace-only
text, `analyze_dream` returns (as a normal value) the exact zero
SignalVector: sentiment 0, every lexicon emotion category present with
score 0, empty entity lists in all five categories, no themes, intensity
0, stress 0. -/
theorem c5_blank_text_zero_vector (cap : NlpCap) (content : String)
    (h : isBlank content = true) :
    analyze_dream cap content = empty_analysis ∧
    empty_analysis.sentiment_score = 0 ∧
    empty_analysis.emotions = emotion_keywords.map (fun p => (p.1, (0 : ℚ))) ∧
    empty_analysis.entities = ⟨[], [], [], [], []⟩ ∧
    empty_analysis.themes = [] ∧
    empty_analysis.dream_intensity = 0 ∧
    empty_analysis.stress_level = 0 := by
  refine ⟨?_, rfl, by decide, rfl, rfl, rfl, rfl⟩
  simp [analyze_dream, h]

/-- C5 witness: whitespace-only text under the trivial capability. -/
theorem c5_witness : analyze_dream trivialCap "  " = empty_analysis :=
  (c5_blank_text_zero_vector trivialCap "  " (by decide)).1

/-! ## Claim C6 -/

/-- C6: for every capability, every non-blank text and every lexicon
category, the emotion score is `min(matches / (word_count * 0.1), 1.0)`
rounded to 3 decimals, where `matches` counts the category's keywords
appearing as substrings of the lower-cased text (each at most once) and
`word_count` is the non-stopword, non-punctuation token count floored at
1; all lexicon categories appear in the output, in order. -/
theorem c6_emotion_score_formula (cap : NlpCap) (text : String)
    (hb : isBlank text = false) (em : String) (kws : List String)
    (hmem : (em, kws) ∈ emotion_keywords) :
    ((analyze_dream cap text).emotions).lookup em =
      some (round3 (min (((kws.countP (fun kw => strContains (pyLower text) kw)) : ℚ) /
        ((effWordCount (cap.tokens text) : ℚ) * (1/10))) 1)) ∧
    ((analyze_dream cap text).emotions).map Prod.fst = emotion_keywords.map Prod.fst := by
  have he : (analyze_dream cap text).emotions = detect_emotions cap text := by
    simp [analyze_dream, hb]
  rw [he]
  simp only [detect_emotions]
  constructor
  · exact lookup_map_pair emotion_keywords
      (fun p => round3 (min (((p.2.countP (fun kw => strContains (pyLower text) kw)) : ℚ) /
        ((effWordCount (cap.tokens text) : ℚ) * (1/10))) 1)) em kws hmem (by decide)
  · simp [detect_emotions]

/-- C6 witness: on "happy nightmare" with two content tokens, "joy" has
one keyword match, giving `min(1 / (2*0.1), 1) = 1`. -/
theorem c6_witness :
    ((analyze_dream capW "happy nightmare").emotions).lookup "joy" = some 1 := by
  have h := (c6_emotion_score_formula capW "happy nightmare" (by decide) "joy"
    ["happy", "joyful", "excited", "delighted", "cheerful", "wonderful",
     "amazing", "love", "loved", "beautiful", "peaceful", "content"] (by decide)).1
  rw [h]
  have hc : (["happy", "joyful", "excited", "delighted", "cheerful", "wonderful",
      "amazing", "love", "loved", "beautiful", "peaceful", "content"].countP
        (fun kw => strContains (pyLower "happy nightmare") kw)) = 1 := by decide
  have hw : effWordCount (capW.tokens "happy nightmare") = 2 := by decide
  rw [hc, hw]
  norm_num [round3, rhe, Int.fract, min_def]

/-! ## Claim C7 -/

/-- An entry whose stored emotions are joy/sadness/fear each 1. -/
def entry7c : DreamEntry :=
  ⟨0, some 1, some [("joy", 1), ("sadness", 1), ("fear", 1)], none, none, none⟩

/-- C7, counterexample.  With three equal emotion scores each ratio 1/3
rounds to 0.333 and the distribution values sum to 0.999, which is not
within 1e-6 of 1. -/
theorem c7_counterexample :
    (generate_insights [entry7c]).map
        (fun i => ((i.emotion_distribution.map Prod.snd).sum)) = some (999/1000) ∧
    ¬(|(999/1000 : ℚ) - 1| ≤ 1/1000000) := by
  constructor
  · simp [generate_insights, emotionTotal, accumEmotions, addScore, entry7c, round3, rhe]
    norm_num [Int.fract]
  · rw [abs_le]
    norm_num

/-- C7, amended: each distribution value is a 3-decimal rounding of
`summed emotion / grand total`, so the values sum to 1 within
`0.0005 × (number of categories)` (not within 1e-6) whenever the grand
total is positive; when the grand total is zero the distribution is the
empty map. -/
theorem c7_distribution_sum_amended (entries : List DreamEntry) (i : Insights)
    (hi : generate_insights entries = some i) :
    (0 < emotionTotal entries →
      |((i.emotion_distribution.map Prod.snd).sum) - 1| ≤
        (i.emotion_distribution.length : ℚ) / 2000) ∧
    (emotionTotal entries = 0 → i.emotion_distribution = []) := by
  cases entries with
  | nil => simp [generate_insights] at hi
  | cons a t =>
    simp only [generate_insights, List.isEmpty_cons, Bool.false_eq_true, if_false,
      Option.some.injEq] at hi
    subst hi
    constructor
    · intro hT
      simp only [if_pos hT]
      have hmm : (((accumEmotions (a :: t)).map
            (fun p => (p.1, round3 (p.2 / emotionTotal (a :: t))))).map Prod.snd) =
          (((accumEmotions (a :: t)).map (fun p => p.2 / emotionTotal (a :: t))).map
            round3) := by
        simp [List.map_map, Function.comp]
      have hsum : ((accumEmotions (a :: t)).map
          (fun p => p.2 / emotionTotal (a :: t))).sum = 1 := by
        have hcomp : ((accumEmotions (a :: t)).map
            (fun p => p.2 / emotionTotal (a :: t))) =
            (((accumEmotions (a :: t)).map Prod.snd).map
              (fun v => v / emotionTotal (a :: t))) := by
          simp [List.map_map, Function.comp]
        rw [hcomp, sum_map_div]
        exact div_self (ne_of_gt hT)
      have hb := sum_round3_close ((accumEmotions (a :: t)).map
        (fun p => p.2 / emotionTotal (a :: t)))
      rw [hsum] at hb
      rw [hmm]
      simpa using hb
    · intro hT
      simp [hT]

/-- The entry used by the C7 witness: joy and fear each at 1. -/
def entryW7 : DreamEntry := ⟨0, some 1, some [("joy", 1), ("fear", 1)], none, none, none⟩

/-- The insights record that `generate_insights [entryW7]` computes. -/
def insightsW7 : Insights :=
  ⟨1, 1, "joy", [("joy", 1/2), ("fear", 1/2)], [], "insufficient data"⟩

/-- C7 witness: a concrete two-category distribution obeys the amended
bound. -/
theorem c7_witness :
    |(((insightsW7.emotion_distribution.map Prod.snd).sum) - 1)| ≤
      (insightsW7.emotion_distribution.length : ℚ) / 2000 :=
  (c7_distribution_sum_amended [entryW7] insightsW7 (by
    simp [generate_insights, truthySentSum, accumEmotions, addScore, emotionTotal,
      maxByValue, mostCommon_nil, stressTrend, entryW7, insightsW7, round3, rhe]
    norm_num [Int.fract])).1 (by
    simp [emotionTotal, accumEmotions, addScore, entryW7])

/-! ## Claim C8 -/

/-- C8: whenever the aggregator's record over at least 5 entries has
average sentiment -0.5 and dominant emotion "fear", the composed
recommendations contain the stress-reduction string (average sentiment
below -0.3) and the fear-specific pre-sleep journaling string, and the
default "balanced" message is absent. -/
theorem c8_fear_recommendations (entries : List DreamEntry) (_h5 : 5 ≤ entries.length)
    (i : Insights) (_hi : generate_insights entries = some i)
    (havg : i.avg_sentiment = -(1/2)) (hdom : i.dominant_emotion = "fear") :
    "Your dreams show negative sentiment. Consider stress-reduction practices before bed."
      ∈ generate_recommendations i ∧
    "Fear is prominent in your dreams. Consider journaling before bed to process anxieties."
      ∈ generate_recommendations i ∧
    "Your dream patterns look balanced. Continue regular journaling for best insights."
      ∉ generate_recommendations i := by
  have hneg : i.avg_sentiment < -(3/10) := by rw [havg]; norm_num
  by_cases hst : i.stress_trend = "increasing" <;>
    simp [generate_recommendations, if_pos hneg, hdom, hst]

/-- The entry used by the C8 witness: sentiment -0.5, emotion fear at 1. -/
def entryF : DreamEntry := ⟨0, some (-(1/2)), some [("fear", 1)], none, none, none⟩

/-- The insights record that `generate_insights` computes on five copies
of `entryF`. -/
def insightsF : Insights := ⟨5, -(1/2), "fear", [("fear", 1)], [], "insufficient data"⟩

/-- C8 witness: five concrete entries with average sentiment -0.5 and
dominant emotion fear. -/
theorem c8_witness :
    "Your dreams show negative sentiment. Consider stress-reduction practices before bed."
      ∈ generate_recommendations insightsF ∧
    "Fear is prominent in your dreams. Consider journaling before bed to process anxieties."
      ∈ generate_recommendations insightsF ∧
    "Your dream patterns look balanced. Continue regular journaling for best insights."
      ∉ generate_recommendations insightsF :=
  c8_fear_recommendations [entryF, entryF, entryF, entryF, entryF] (by decide) insightsF
    (by
      simp [generate_insights, truthySentSum, accumEmotions, addScore, emotionTotal,
        maxByValue, mostCommon_nil, stressTrend, entryF, insightsF, round3, rhe]
      norm_num [Int.fract])
    rfl rfl

/-! ## Claim C3 -/

/-- C3: for forecasting at least one day ahead, `predict_mood_trend`
returns `none` exactly when the input has fewer than 7 entries or fewer
than 3 entries with a sentiment (every stored entry has a timestamp, so
"timestamp and sentiment present" reduces to the sentiment being present);
otherwise a forecast is returned.  In exact rational arithmetic the
embedded least-squares fit is total, so the source's caught numerical
failure contributes no further `none` case. -/
theorem c3_predict_none_iff (entries : List DreamEntry) (days_ahead : ℕ)
    (hd : 1 ≤ days_ahead) :
    predict_mood_trend entries days_ahead = none ↔
      entries.length < 7 ∨
      (entries.filter (fun e => e.sentiment_score.isSome)).length < 3 := by
  unfold predict_mood_trend
  by_cases h7 : entries.length < 7
  · simp [h7]
  · rw [if_neg h7]
    by_cases h3 : (qualifyingPoints entries).length < 3
    · rw [if_pos h3]
      rw [qualifyingPoints_length] at h3
      simp [h7, h3]
    · rw [if_neg h3]
      rw [qualifyingPoints_length] at h3
      obtain ⟨k, rfl⟩ : ∃ k, days_ahead = k + 1 := ⟨days_ahead - 1, by omega⟩
      rw [List.range_succ_eq_map]
      simp [h7, h3]

/-- A sentiment-bearing entry on day `k` (at midnight). -/
def sampleEntry (k : ℤ) : DreamEntry := ⟨24 * k, some ((k : ℚ) / 10), none, none, none, none⟩

/-- Seven sentiment-bearing entries on days 0..6 in chronological order. -/
def chron7 : List DreamEntry :=
  [sampleEntry 0, sampleEntry 1, sampleEntry 2, sampleEntry 3,
   sampleEntry 4, sampleEntry 5, sampleEntry 6]

/-- C3 witness: one entry is too few and yields `none`; seven
sentiment-bearing entries yield a forecast. -/
theorem c3_witness :
    predict_mood_trend [sampleEntry 0] 7 = none ∧
    predict_mood_trend chron7 7 ≠ none := by
  constructor
  · exact (c3_predict_none_iff [sampleEntry 0] 7 (by norm_num)).mpr (Or.inl (by decide))
  · intro h
    rcases (c3_predict_none_iff chron7 7 (by norm_num)).mp h with h1 | h2
    · exact absurd h1 (by decide)
    · exact absurd h2 (by decide)

/-! ## Claim C4 -/

/-- Seven sentiment-bearing entries on days 6,5,...,0 — reverse
chronological input order. -/
def rev7 : List DreamEntry :=
  [sampleEntry 6, sampleEntry 5, sampleEntry 4, sampleEntry 3,
   sampleEntry 2, sampleEntry 1, sampleEntry 0]

/-- C4: the source computes each day offset from `entries[0]` — the first
element of the INPUT list — not from the chronologically earliest entry.
On the same seven entries presented newest-first the forecast's day
offsets are 1..7 (relative to the newest entry), while presented
oldest-first they are 7..13 as the claim requires, so the forecast is not
independent of the input ordering and the offsets are not measured from
the earliest entry. -/
theorem c4_offset_origin_bug :
    (predict_mood_trend rev7 7).map (fun f => f.days) = some [1, 2, 3, 4, 5, 6, 7] ∧
    (predict_mood_trend (sortBy (fun a b => decide (a.dream_date ≤ b.dream_date)) rev7) 7).map
      (fun f => f.days) = some [7, 8, 9, 10, 11, 12, 13] ∧
    ([1, 2, 3, 4, 5, 6, 7] : List ℤ) ≠ [7, 8, 9, 10, 11, 12, 13] := by
  refine ⟨by decide, by decide, by decide⟩

/-! ## Claim C9 -/

/-- A morning entry (hour 8) whose sentiment is NULL. -/
def entryM9 : DreamEntry := ⟨8, none, none, none, none, none⟩

/-- An evening entry (hour 15) with sentiment 0.5. -/
def entryE9 : DreamEntry := ⟨15, some (1/2), none, none, none, none⟩

/-- C9: with both buckets non-empty but a `None` sentiment in the morning
bucket, `_analyze_time_patterns` raises `TypeError` from `sum`, instead of
returning a record or `None`; with only an evening entry it does return
`None` as the claim says. -/
theorem c9_time_patterns_raise :
    analyze_time_patterns [entryM9, entryE9] = Except.error "TypeError" ∧
    analyze_time_patterns [entryE9] = Except.ok none := ⟨rfl, rfl⟩

/-! ## Claim C10 -/

/-- A noun token (not a stop word, not punctuation). -/
def nounTok (s : String) : Token := ⟨s, "NOUN", false, false⟩

/-- A capability tokenising every text into 11 noun tokens whose first ten
occurrences contain a duplicate ("rock" twice), with 10 distinct
qualifying nouns overall. -/
def capTen : NlpCap :=
  ⟨fun _ => ["rock", "rock", "tree", "lake", "bird", "cloud",
             "fire", "sand", "wolf", "moon", "star"].map nounTok,
   fun _ => [], fun _ => 0, fun _ => 0⟩

/-- C10: the source takes the first 10 noun OCCURRENCES and deduplicates
afterwards (`list(set(nouns[:10]))`), so on a text with 10 distinct
qualifying nouns whose first ten occurrences repeat one of them, `symbols`
has only 9 entries, not 10. -/
theorem c10_symbols_truncation_bug :
    (analyze_dream capTen "many nouns").entities.symbols.length = 9 ∧
    (qualifyingNouns (capTen.tokens "many nouns")).dedup.length = 10 := by
  refine ⟨by decide, by decide⟩

end DreamZero
